import Mathlib

/-!
Verification of the two-stage decision pipeline of the llm-maps application:
the intent classifier of the `/api/ask` handler (backend server) and the
`GeolocationService` location resolver of the frontend.

Text is modelled as `List Char` (JS strings); JS numbers appearing in
coordinates are modelled as `ℚ` (all literals in the source are short
decimals), and the real-valued haversine distance is modelled over `ℝ`.
`Char.toLower` and the whitespace set are the ASCII fragments actually
exercised by the source's keyword sets.
-/

/-- The char list of a string literal (shorthand used throughout). -/
def lc (s : String) : List Char := s.toList

/-- ASCII whitespace, the fragment of the JS `trim` character class exercised here. -/
def isWS (c : Char) : Bool := c == ' ' || c == '\t' || c == '\n' || c == '\r'

/-- JS `String.prototype.trim`: strip whitespace from both ends. -/
def trimList (s : List Char) : List Char :=
  ((s.dropWhile isWS).reverse.dropWhile isWS).reverse

/-- JS `String.prototype.includes` / regex alternation of plain literals:
`needle` occurs as a contiguous substring of the haystack. -/
def containsSub (needle : List Char) : List Char → Bool
  | [] => needle.isEmpty
  | c :: rest => needle.isPrefixOf (c :: rest) || containsSub needle rest

/-- `message.toLowerCase().trim()` from the `/api/ask` handler. -/
def normalizeMessage (msg : List Char) : List Char :=
  trimList (msg.map Char.toLower)

/-- The six search categories of the keyword rule chain, in source order. -/
inductive SearchCat
  | atm
  | restaurants
  | pharmacy
  | gasStation
  | hospitals
  | hotels
deriving DecidableEq

/-- Keywords of the restaurant rule: `/restoran|restaurant|makan|kuliner|tempat makan|warung|cafe|gultik/i`. -/
def restaurantKeywords : List (List Char) :=
  [lc "restoran", lc "restaurant", lc "makan", lc "kuliner", lc "tempat makan",
   lc "warung", lc "cafe", lc "gultik"]

/-- Keywords of the pharmacy rule: `/apotek|pharmacy|obat|farmasi/i`. -/
def pharmacyKeywords : List (List Char) :=
  [lc "apotek", lc "pharmacy", lc "obat", lc "farmasi"]

/-- Keywords of the gas-station rule: `/spbu|gas station|bensin|pertamina|shell|pom/i`. -/
def gasStationKeywords : List (List Char) :=
  [lc "spbu", lc "gas station", lc "bensin", lc "pertamina", lc "shell", lc "pom"]

/-- Keywords of the hospital rule: `/rumah sakit|hospital|rs |klinik/i`. -/
def hospitalKeywords : List (List Char) :=
  [lc "rumah sakit", lc "hospital", lc "rs ", lc "klinik"]

/-- Keywords of the hotel rule: `/hotel|penginapan|homestay/i`. -/
def hotelKeywords : List (List Char) :=
  [lc "hotel", lc "penginapan", lc "homestay"]

/-- A regex alternation of plain literals matches iff some literal is a substring. -/
def matchesAny (ks : List (List Char)) (s : List Char) : Bool :=
  ks.any (fun k => containsSub k s)

/-- The keyword test of each category against the normalized message.
The ATM rule is `normalizedMessage.includes('atm')`; the others are the
regex alternations of the else-if chain.  All keywords are lower-case, so
the `/i` flag is absorbed by the lower-cased input. -/
def ruleMatch : SearchCat → List Char → Bool
  | SearchCat.atm, s => containsSub (lc "atm") s
  | SearchCat.restaurants, s => matchesAny restaurantKeywords s
  | SearchCat.pharmacy, s => matchesAny pharmacyKeywords s
  | SearchCat.gasStation, s => matchesAny gasStationKeywords s
  | SearchCat.hospitals, s => matchesAny hospitalKeywords s
  | SearchCat.hotels, s => matchesAny hotelKeywords s

/-- The else-if chain of the handler: first matching rule wins, in source order. -/
def ruleScan (s : List Char) : Option SearchCat :=
  if ruleMatch SearchCat.atm s then some SearchCat.atm
  else if ruleMatch SearchCat.restaurants s then some SearchCat.restaurants
  else if ruleMatch SearchCat.pharmacy s then some SearchCat.pharmacy
  else if ruleMatch SearchCat.gasStation s then some SearchCat.gasStation
  else if ruleMatch SearchCat.hospitals s then some SearchCat.hospitals
  else if ruleMatch SearchCat.hotels s then some SearchCat.hotels
  else none

/-- The `searchType` string assigned by each rule branch. -/
def searchTypeOf : SearchCat → List Char
  | SearchCat.atm => lc "ATM"
  | SearchCat.restaurants => lc "restaurants"
  | SearchCat.pharmacy => lc "pharmacy"
  | SearchCat.gasStation => lc "gas station"
  | SearchCat.hospitals => lc "hospitals"
  | SearchCat.hotels => lc "hotels"

/-- The canned `responseText` assigned by each rule branch. -/
def responseTextOf : SearchCat → List Char
  | SearchCat.atm => lc "Saya akan carikan ATM untuk Anda."
  | SearchCat.restaurants => lc "Saya akan carikan restoran untuk Anda."
  | SearchCat.pharmacy => lc "Saya akan carikan apotek untuk Anda."
  | SearchCat.gasStation => lc "Saya akan carikan SPBU untuk Anda."
  | SearchCat.hospitals => lc "Saya akan carikan rumah sakit untuk Anda."
  | SearchCat.hotels => lc "Saya akan carikan hotel untuk Anda."

/-- Position of each category in the else-if chain (0 = tried first). -/
def catIndex : SearchCat → Nat
  | SearchCat.atm => 0
  | SearchCat.restaurants => 1
  | SearchCat.pharmacy => 2
  | SearchCat.gasStation => 3
  | SearchCat.hospitals => 4
  | SearchCat.hotels => 5

/-- The sentinel marker `LOCATION_SEARCH:`. -/
def locMarker : List Char := lc "LOCATION_SEARCH:"

/-- The suffix after the first occurrence of the marker (empty if absent);
the scan position of the regex `/LOCATION_SEARCH:([^\n"]*)/`. -/
def afterMarker : List Char → List Char
  | [] => []
  | c :: rest =>
    if locMarker.isPrefixOf (c :: rest) then List.drop locMarker.length (c :: rest)
    else afterMarker rest

/-- The capture group `([^\n"]*)` of the extraction regex: the run of
characters after the marker up to end-of-line or a double quote. -/
def extractType (r : List Char) : List Char :=
  (afterMarker r).takeWhile (fun ch => !(ch == '\n' || ch == '\"'))

/-- `llmResponse.replace(/LOCATION_SEARCH:.*/, '')`: delete the first
occurrence of the marker together with the rest of that line. -/
def stripMarker : List Char → List Char
  | [] => []
  | c :: rest =>
    if locMarker.isPrefixOf (c :: rest) then
      List.dropWhile (fun ch => !(ch == '\n')) (List.drop locMarker.length (c :: rest))
    else c :: stripMarker rest

/-- `${responseText} LOCATION_SEARCH:${searchType}`, the synthetic LLM
response built in the rule-match branch. -/
def ruleResponse (c : SearchCat) : List Char :=
  responseTextOf c ++ lc " LOCATION_SEARCH:" ++ searchTypeOf c

/-- The observable classification outcome of the handler: the `searchType`
(`none` = the JS `null`, i.e. the spec category None) and the `reply`
string sent to the client (`cleanResponse`). -/
structure AskResult where
  searchType : Option (List Char)
  reply : List Char
deriving DecidableEq

/-- The classification core of the `POST /api/ask` handler.  `llmText` is
the text `queryLLM` would return; the second component counts how many
times the LLM oracle is consulted (the rule-match branch never reads
`llmText`).  The `catch` around the `queryLLM` call is dead code because
`queryLLM` resolves on every path, so it is not a branch here. -/
def processMessage (msg llmText : List Char) : AskResult × Nat :=
  match ruleScan (normalizeMessage msg) with
  | some c =>
      (⟨some (searchTypeOf c), trimList (stripMarker (ruleResponse c))⟩, 0)
  | none =>
      (⟨if containsSub locMarker llmText then some (trimList (extractType llmText)) else none,
        trimList (stripMarker llmText)⟩, 1)

/-- `sanitizeInput`: trim, then cap at 500 characters. -/
def sanitizeInput (s : List Char) : List Char :=
  (trimList s).take 500

/-- The fixed prompt template sent to the oracle. -/
def buildPrompt (msg : List Char) : List Char :=
  lc "Analyze: \"" ++ msg ++
    lc "\". If location search, respond: \"Saya akan carikan [item] untuk Anda. LOCATION_SEARCH:[type]\" where type is ATM, restaurants, pharmacy, gas station, hospitals, or hotels. If not location search, respond helpfully in Indonesian."

/-- `queryLLM`: try the Open WebUI endpoint, then the Ollama endpoint;
`none` stands for any failure (network error, timeout, or a response
missing the expected content field, all of which `throw` in the source).
When both fail the function resolves — it never rejects — with a fixed
unavailability message. -/
def queryLLM (prompt : List Char) (openWebUI ollama : Option (List Char)) : List Char :=
  if (sanitizeInput prompt).isEmpty then lc "Invalid input provided"
  else
    match openWebUI with
    | some t => t
    | none =>
      match ollama with
      | some t => t
      | none => lc "LLM service unavailable. Please try again later."

/-- The full `/api/ask` pipeline: rule scan, then oracle escalation through
`queryLLM` with the fixed prompt template. -/
def askHandler (msg : List Char) (openWebUI ollama : Option (List Char)) : AskResult × Nat :=
  processMessage msg (queryLLM (buildPrompt msg) openWebUI ollama)

/-! ## Location resolver (`GeolocationService`, frontend `App.tsx`) -/

/-- The `source` tag of `LocationCoords`. -/
inductive Source
  | gps
  | network
  | ip
  | fallback
deriving DecidableEq

/-- `LocationCoords`: latitude, longitude, optional accuracy radius, and the
tag of the producing tier.  JS numbers are modelled as `ℚ`. -/
structure LocationCoords where
  lat : ℚ
  lng : ℚ
  accuracy : Option ℚ
  source : Source
deriving DecidableEq

/-- A raw browser geolocation fix (`position.coords`). -/
structure RawPosition where
  latitude : ℚ
  longitude : ℚ
  accuracy : ℚ
deriving DecidableEq

/-- Which external positioning sources a run of the tier chain actually calls. -/
inductive TierCall
  | gps
  | network
  | ip
deriving DecidableEq

/-- The environment one call of `getCurrentLocation` runs in: the outcome of
each external source (`none` = error or timeout, which in the source rejects
the tier's promise), the browser timezone, and `Date.now()`. -/
structure GeoEnv where
  gpsResult : Option RawPosition
  networkResult : Option RawPosition
  ipResult : Option (ℚ × ℚ)
  timezone : List Char
  now : Int
deriving DecidableEq

/-- The mutable state of the service: the in-memory cache fields and the
`lastKnownLocation` record of `localStorage` (the durable copy). -/
structure GeoState where
  cachedLocation : Option LocationCoords
  cacheTimestamp : Int
  storedLocation : Option (LocationCoords × Int)
deriving DecidableEq

/-- `CACHE_DURATION = 5 * 60 * 1000` (ms). -/
def CACHE_DURATION : Int := 5 * 60 * 1000

/-- The `FALLBACK_LOCATIONS.jakarta` record (no accuracy field). -/
def jakarta : LocationCoords := ⟨-6.2088, 106.8456, none, Source.fallback⟩

/-- The `FALLBACK_LOCATIONS.surabaya` record. -/
def surabaya : LocationCoords := ⟨-7.2575, 112.7521, none, Source.fallback⟩

/-- The `FALLBACK_LOCATIONS.bandung` record. -/
def bandung : LocationCoords := ⟨-6.9175, 107.6191, none, Source.fallback⟩

instance : Inhabited LocationCoords := ⟨jakarta⟩

/-- The coordinate built by the GPS tier (`getGPSLocation` success callback). -/
def gpsTierCoord (p : RawPosition) : LocationCoords :=
  ⟨p.latitude, p.longitude, some p.accuracy, Source.gps⟩

/-- The coordinate built by the network tier (`getNetworkLocation` success callback). -/
def networkTierCoord (p : RawPosition) : LocationCoords :=
  ⟨p.latitude, p.longitude, some p.accuracy, Source.network⟩

/-- The coordinate built by the IP tier (`getIPLocation`, no accuracy field). -/
def ipTierCoord (q : ℚ × ℚ) : LocationCoords :=
  ⟨q.1, q.2, none, Source.ip⟩

/-- `getFallbackLocation`: both the timezone branch and the default (and the
`catch`) return the Jakarta record. -/
def getFallbackLocation (timezone : List Char) : LocationCoords :=
  if containsSub (lc "Jakarta") timezone || containsSub (lc "Asia/Jakarta") timezone
  then jakarta
  else jakarta

/-- `isCacheValid`: a cached location exists and is younger than `CACHE_DURATION`. -/
def isCacheValid (env : GeoEnv) (st : GeoState) : Bool :=
  st.cachedLocation.isSome && decide (env.now - st.cacheTimestamp < CACHE_DURATION)

/-- `updateCache`: overwrite the in-memory fields and the `localStorage`
record with the new coordinate and a fresh timestamp.  The `try/catch`
around the `localStorage` write only absorbs storage errors; the write is
modelled as succeeding. -/
def updateCache (loc : LocationCoords) (now : Int) (_st : GeoState) : GeoState :=
  ⟨some loc, now, some (loc, now)⟩

/-- `getCurrentLocation`: cache check, then the four-tier chain
GPS → network → IP → static fallback, each failure advancing to the next.
The third component records which external positioning sources were called
(the static fallback makes no external call).  The fallback branch of the
source returns without calling `updateCache`.  The `!` assertion on the
cached location is modelled by `Option.getD`, unreachable because
`isCacheValid` implies the cache is populated. -/
def getCurrentLocation (env : GeoEnv) (st : GeoState) :
    LocationCoords × GeoState × List TierCall :=
  if isCacheValid env st then
    (st.cachedLocation.getD jakarta, st, [])
  else
    match env.gpsResult with
    | some p => (gpsTierCoord p, updateCache (gpsTierCoord p) env.now st, [TierCall.gps])
    | none =>
      match env.networkResult with
      | some p =>
          (networkTierCoord p, updateCache (networkTierCoord p) env.now st,
           [TierCall.gps, TierCall.network])
      | none =>
        match env.ipResult with
        | some q =>
            (ipTierCoord q, updateCache (ipTierCoord q) env.now st,
             [TierCall.gps, TierCall.network, TierCall.ip])
        | none =>
            (getFallbackLocation env.timezone, st,
             [TierCall.gps, TierCall.network, TierCall.ip])

/-- `restoreFromCache`: restore the `localStorage` record into the in-memory
cache if it is younger than the 30-minute durable window. -/
def restoreFromCache (now : Int) (st : GeoState) : Option LocationCoords × GeoState :=
  match st.storedLocation with
  | none => (none, st)
  | some (loc, ts) =>
      if now - ts < 30 * 60 * 1000 then (some loc, ⟨some loc, ts, st.storedLocation⟩)
      else (none, st)

/-- The option record of a `getCurrentPosition` / `watchPosition` request. -/
structure PositionRequest where
  enableHighAccuracy : Bool
  timeoutMs : Nat
  maximumAgeMs : Nat
deriving DecidableEq

/-- Options of the GPS tier request (`enableHighAccuracy: true`). -/
def gpsTierRequest : PositionRequest := ⟨true, 10000, 120000⟩

/-- Options of the network tier request (`enableHighAccuracy: false`). -/
def networkTierRequest : PositionRequest := ⟨false, 5000, 300000⟩

/-- Options of the `watchPosition` subscription (`enableHighAccuracy: false`). -/
def watchRequest : PositionRequest := ⟨false, 10000, 60000⟩

/-- The coordinate built by the `watchPosition` success callback: the source
tag is the literal `'gps'`. -/
def watchUpdateCoord (p : RawPosition) : LocationCoords :=
  ⟨p.latitude, p.longitude, some p.accuracy, Source.gps⟩

/-- One `watchPosition` update: build the coordinate, refresh the cache,
hand the coordinate to the callback. -/
def watchUpdate (p : RawPosition) (now : Int) (st : GeoState) :
    LocationCoords × GeoState :=
  (watchUpdateCoord p, updateCache (watchUpdateCoord p) now st)

/-! ## Distance (`getDistance` / `toRadians`), over `ℝ` -/

/-- `toRadians(degrees) = degrees * (Math.PI / 180)`. -/
noncomputable def toRadians (degrees : ℝ) : ℝ := degrees * (Real.pi / 180)

/-- `Math.atan2` on the reals. -/
noncomputable def atan2 (y x : ℝ) : ℝ :=
  if 0 < x then Real.arctan (y / x)
  else if x < 0 then
    (if 0 ≤ y then Real.arctan (y / x) + Real.pi else Real.arctan (y / x) - Real.pi)
  else
    (if 0 < y then Real.pi / 2 else if y < 0 then -(Real.pi / 2) else 0)

/-- The intermediate `a` of `getDistance`:
`sin(dLat/2)*sin(dLat/2) + cos(rad lat1)*cos(rad lat2)*sin(dLng/2)*sin(dLng/2)`. -/
noncomputable def hav_a (c₁ c₂ : LocationCoords) : ℝ :=
  Real.sin (toRadians ((c₂.lat : ℝ) - (c₁.lat : ℝ)) / 2) *
      Real.sin (toRadians ((c₂.lat : ℝ) - (c₁.lat : ℝ)) / 2) +
    Real.cos (toRadians (c₁.lat : ℝ)) * Real.cos (toRadians (c₂.lat : ℝ)) *
      Real.sin (toRadians ((c₂.lng : ℝ) - (c₁.lng : ℝ)) / 2) *
      Real.sin (toRadians ((c₂.lng : ℝ) - (c₁.lng : ℝ)) / 2)

/-- `getDistance`: haversine distance, `R = 6371` km,
`c = 2 * atan2(sqrt a, sqrt(1 - a))`, result `R * c`. -/
noncomputable def getDistance (c₁ c₂ : LocationCoords) : ℝ :=
  6371 * (2 * atan2 (Real.sqrt (hav_a c₁ c₂)) (Real.sqrt (1 - hav_a c₁ c₂)))

/-! ## Helper lemmas -/

theorem containsSub_iff_occurs (n : List Char) : ∀ s : List Char,
    containsSub n s = true ↔ n <:+: s := by
  intro s
  induction s with
  | nil =>
    simp [containsSub, List.isEmpty_iff]
  | cons c rest ih =>
    simp [containsSub, List.infix_cons_iff, ih]

theorem infix_dropWhile_of_not (p : Char → Bool) (n : List Char) (hn : n ≠ [])
    (hfree : ∀ c ∈ n, p c = false) :
    ∀ s : List Char, n <:+: s → n <:+: s.dropWhile p := by
  intro s
  induction s with
  | nil =>
    intro h
    rw [List.infix_nil] at h
    exact absurd h hn
  | cons a t ih =>
    intro h
    by_cases ha : p a = true
    · rw [List.dropWhile_cons, if_pos ha]
      rcases List.infix_cons_iff.1 h with hp | hi
      · rcases n with _ | ⟨b, nt⟩
        · exact absurd rfl hn
        · obtain ⟨u, hu⟩ := hp
          simp only [List.cons_append, List.cons.injEq] at hu
          have hpa : p a = false := hu.1 ▸ hfree b (List.mem_cons_self b nt)
          rw [hpa] at ha
          exact absurd ha (by simp)
      · exact ih hi
    · rw [List.dropWhile_cons, if_neg ha]
      exact h

theorem infix_trimList (n s : List Char) (hn : n ≠ [])
    (hfree : ∀ c ∈ n, isWS c = false) (h : n <:+: s) : n <:+: trimList s := by
  unfold trimList
  have h1 : n <:+: s.dropWhile isWS := infix_dropWhile_of_not isWS n hn hfree s h
  have h2 : n.reverse <:+: (s.dropWhile isWS).reverse := List.reverse_infix.2 h1
  have h3 : n.reverse <:+: ((s.dropWhile isWS).reverse.dropWhile isWS) :=
    infix_dropWhile_of_not isWS n.reverse (by simpa using hn)
      (fun c hc => hfree c (List.mem_reverse.1 hc)) _ h2
  have h4 := List.reverse_infix.2 h3
  simpa using h4

theorem containsSub_trimList (n s : List Char) (hn : n ≠ [])
    (hfree : ∀ c ∈ n, isWS c = false) (h : containsSub n s = true) :
    containsSub n (trimList s) = true := by
  rw [containsSub_iff_occurs] at h ⊢
  exact infix_trimList n s hn hfree h

theorem sanitizeInput_cons_A (t : List Char) :
    (sanitizeInput ('A' :: t)).isEmpty = false := by
  unfold sanitizeInput trimList
  have hA : isWS 'A' = false := by decide
  rw [List.dropWhile_cons, hA]
  simp only [Bool.false_eq_true, if_false]
  have h2 : ('A' :: t).reverse.dropWhile isWS ≠ [] := by
    rw [Ne, List.dropWhile_eq_nil_iff]
    intro hall
    have := hall 'A' (by simp)
    rw [hA] at this
    exact absurd this (by simp)
  rcases hrev : (('A' :: t).reverse.dropWhile isWS).reverse with _ | ⟨a, l⟩
  · rw [List.reverse_eq_nil_iff] at hrev
    exact absurd hrev h2
  · rfl

theorem sanitize_buildPrompt_isEmpty (msg : List Char) :
    (sanitizeInput (buildPrompt msg)).isEmpty = false :=
  sanitizeInput_cons_A _

theorem getFallbackLocation_eq (tz : List Char) : getFallbackLocation tz = jakarta := by
  simp [getFallbackLocation]

theorem processMessage_some (msg r : List Char) (c : SearchCat)
    (h : ruleScan (normalizeMessage msg) = some c) :
    processMessage msg r
      = (⟨some (searchTypeOf c), trimList (stripMarker (ruleResponse c))⟩, 0) := by
  unfold processMessage
  rw [h]

theorem processMessage_none (msg r : List Char)
    (h : ruleScan (normalizeMessage msg) = none) :
    processMessage msg r
      = (⟨if containsSub locMarker r then some (trimList (extractType r)) else none,
          trimList (stripMarker r)⟩, 1) := by
  unfold processMessage
  rw [h]

/-! ## Claim theorems: intent classifier -/

/-- C2: the rule stage is an ordered first-match scan in the fixed order
ATM, restaurants, pharmacy, gas station, hospitals, hotels over the
lower-cased trimmed message: whenever some category's keywords match the
normalized text, the scan yields a matching category of minimal chain
index (so on inputs matching two or more categories the earliest wins),
the oracle is consulted zero times, and the outcome is independent of the
oracle text. -/
theorem classify_rule_priority (msg : List Char) (c : SearchCat)
    (h : ruleMatch c (normalizeMessage msg) = true) :
    ∃ c', ruleScan (normalizeMessage msg) = some c'
      ∧ ruleMatch c' (normalizeMessage msg) = true
      ∧ catIndex c' ≤ catIndex c
      ∧ (∀ r, (processMessage msg r).2 = 0)
      ∧ (∀ r₁ r₂, processMessage msg r₁ = processMessage msg r₂) := by
  by_cases h0 : ruleMatch SearchCat.atm (normalizeMessage msg) = true
  · have hscan : ruleScan (normalizeMessage msg) = some SearchCat.atm := by
      unfold ruleScan; rw [if_pos h0]
    exact ⟨SearchCat.atm, hscan, h0, by cases c <;> simp [catIndex],
      fun r => by simp [processMessage, hscan],
      fun r₁ r₂ => by simp [processMessage, hscan]⟩
  · by_cases h1 : ruleMatch SearchCat.restaurants (normalizeMessage msg) = true
    · have hscan : ruleScan (normalizeMessage msg) = some SearchCat.restaurants := by
        unfold ruleScan; rw [if_neg h0, if_pos h1]
      exact ⟨SearchCat.restaurants, hscan, h1,
        by cases c <;> simp_all [catIndex],
        fun r => by simp [processMessage, hscan],
        fun r₁ r₂ => by simp [processMessage, hscan]⟩
    · by_cases h2 : ruleMatch SearchCat.pharmacy (normalizeMessage msg) = true
      · have hscan : ruleScan (normalizeMessage msg) = some SearchCat.pharmacy := by
          unfold ruleScan; rw [if_neg h0, if_neg h1, if_pos h2]
        exact ⟨SearchCat.pharmacy, hscan, h2,
          by cases c <;> simp_all [catIndex],
          fun r => by simp [processMessage, hscan],
          fun r₁ r₂ => by simp [processMessage, hscan]⟩
      · by_cases h3 : ruleMatch SearchCat.gasStation (normalizeMessage msg) = true
        · have hscan : ruleScan (normalizeMessage msg) = some SearchCat.gasStation := by
            unfold ruleScan; rw [if_neg h0, if_neg h1, if_neg h2, if_pos h3]
          exact ⟨SearchCat.gasStation, hscan, h3,
            by cases c <;> simp_all [catIndex],
            fun r => by simp [processMessage, hscan],
            fun r₁ r₂ => by simp [processMessage, hscan]⟩
        · by_cases h4 : ruleMatch SearchCat.hospitals (normalizeMessage msg) = true
          · have hscan : ruleScan (normalizeMessage msg) = some SearchCat.hospitals := by
              unfold ruleScan; rw [if_neg h0, if_neg h1, if_neg h2, if_neg h3, if_pos h4]
            exact ⟨SearchCat.hospitals, hscan, h4,
              by cases c <;> simp_all [catIndex],
              fun r => by simp [processMessage, hscan],
              fun r₁ r₂ => by simp [processMessage, hscan]⟩
          · by_cases h5 : ruleMatch SearchCat.hotels (normalizeMessage msg) = true
            · have hscan : ruleScan (normalizeMessage msg) = some SearchCat.hotels := by
                unfold ruleScan
                rw [if_neg h0, if_neg h1, if_neg h2, if_neg h3, if_neg h4, if_pos h5]
              exact ⟨SearchCat.hotels, hscan, h5,
                by cases c <;> simp_all [catIndex],
                fun r => by simp [processMessage, hscan],
                fun r₁ r₂ => by simp [processMessage, hscan]⟩
            · exact absurd h (by
                cases c
                · exact h0
                · exact h1
                · exact h2
                · exact h3
                · exact h4
                · exact h5)

/-- Witness for C2: "cari atm dan restoran" matches both the ATM and the
restaurant keywords; the scan settles on a category no later in the chain
than restaurants (namely ATM). -/
theorem classify_rule_priority_witness :
    ruleMatch SearchCat.restaurants (normalizeMessage (lc "cari atm dan restoran")) = true
    ∧ ∃ c', ruleScan (normalizeMessage (lc "cari atm dan restoran")) = some c'
        ∧ ruleMatch c' (normalizeMessage (lc "cari atm dan restoran")) = true
        ∧ catIndex c' ≤ catIndex SearchCat.restaurants
        ∧ (∀ r, (processMessage (lc "cari atm dan restoran") r).2 = 0)
        ∧ (∀ r₁ r₂, processMessage (lc "cari atm dan restoran") r₁
            = processMessage (lc "cari atm dan restoran") r₂) :=
  ⟨by decide, classify_rule_priority (lc "cari atm dan restoran") SearchCat.restaurants (by decide)⟩

/-- C3: when no rule matches and both oracle endpoints fail (network error,
timeout, and malformed response all reject inside `queryLLM` and are `none`
here), the pipeline — a total function, it never throws — returns the None
category (`searchType = none`, so no map data) together with the fixed
non-empty unavailability reply. -/
theorem classify_oracle_failure_none (msg : List Char)
    (h : ruleScan (normalizeMessage msg) = none) :
    askHandler msg none none
        = (⟨none, lc "LLM service unavailable. Please try again later."⟩, 1)
      ∧ lc "LLM service unavailable. Please try again later." ≠ [] := by
  have hq : queryLLM (buildPrompt msg) none none
      = lc "LLM service unavailable. Please try again later." := by
    unfold queryLLM
    simp [sanitize_buildPrompt_isEmpty]
  refine ⟨?_, by decide⟩
  unfold askHandler
  rw [hq]
  unfold processMessage
  rw [h]
  decide

/-- Witness for C3 at the unmatched input "apa kabar". -/
theorem classify_oracle_failure_none_witness :
    askHandler (lc "apa kabar") none none
        = (⟨none, lc "LLM service unavailable. Please try again later."⟩, 1)
      ∧ lc "LLM service unavailable. Please try again later." ≠ [] :=
  classify_oracle_failure_none (lc "apa kabar") (by decide)

/-- C4 fails on the code: for the unmatched input "apa kabar" and an oracle
response consisting solely of the sentinel marker line, the handler still
extracts the restaurants search type, but stripping the marker line and
trimming leaves the empty reply. -/
theorem reply_nonempty_counterexample :
    (processMessage (lc "apa kabar") (lc "LOCATION_SEARCH:restaurants")).1.reply = []
    ∧ (processMessage (lc "apa kabar") (lc "LOCATION_SEARCH:restaurants")).1.searchType
        = some (lc "restaurants") := by decide

/-- C4 amended: the reply is empty exactly when no rule matches and deleting
the marker line from the oracle text and trimming leaves nothing (e.g. a
response that is only the sentinel marker line); in every other case — any
rule match, or any oracle text with residual content — the reply is
non-empty. -/
theorem reply_empty_iff (msg r : List Char) :
    (processMessage msg r).1.reply = []
      ↔ ruleScan (normalizeMessage msg) = none ∧ trimList (stripMarker r) = [] := by
  cases hscan : ruleScan (normalizeMessage msg) with
  | none =>
    unfold processMessage
    rw [hscan]
    simp
  | some c =>
    rw [processMessage_some msg r c hscan]
    constructor
    · intro hr
      exact absurd hr (by cases c <;> decide)
    · rintro ⟨h1, -⟩
      exact absurd h1 (by simp)

/-- C5: in the no-rule-match branch, a marker-bearing oracle text has its
category taken by the single first-match extraction — the run after the
marker up to end-of-line or a double quote, trimmed, with no validation
against the category set — and the user-visible reply has the marker text
stripped; in particular the response
"Saya akan carikan restoran untuk Anda. LOCATION_SEARCH:restaurants"
yields the restaurants search type and a marker-free reply, and the
free-form " somewhere weird" suffix is taken verbatim (trimmed). -/
theorem classify_marker_extraction (msg : List Char)
    (h : ruleScan (normalizeMessage msg) = none) :
    (∀ r, containsSub locMarker r = true →
        (processMessage msg r).1.searchType = some (trimList (extractType r))
        ∧ (processMessage msg r).1.reply = trimList (stripMarker r))
    ∧ processMessage msg (lc "Saya akan carikan restoran untuk Anda. LOCATION_SEARCH:restaurants")
        = (⟨some (lc "restaurants"), lc "Saya akan carikan restoran untuk Anda."⟩, 1)
    ∧ searchTypeOf SearchCat.restaurants = lc "restaurants"
    ∧ containsSub locMarker (lc "Saya akan carikan restoran untuk Anda.") = false
    ∧ (processMessage msg (lc "Oke. LOCATION_SEARCH: somewhere weird")).1.searchType
        = some (lc "somewhere weird") := by
  refine ⟨?_, ?_, by decide, by decide, ?_⟩
  · intro r hr
    rw [processMessage_none msg r h]
    simp [hr]
  · rw [processMessage_none msg _ h]
    decide
  · rw [processMessage_none msg _ h]
    decide

/-- Witness for C5 at the unmatched input "halo". -/
theorem classify_marker_extraction_witness :
    ruleScan (normalizeMessage (lc "halo")) = none
    ∧ processMessage (lc "halo")
          (lc "Saya akan carikan restoran untuk Anda. LOCATION_SEARCH:restaurants")
        = (⟨some (lc "restaurants"), lc "Saya akan carikan restoran untuk Anda."⟩, 1) :=
  ⟨by decide, (classify_marker_extraction (lc "halo") (by decide)).2.1⟩

/-- C10: any message whose lower-cased text contains the bare substring
"atm" — inside longer words and in any letter case included — is classified
ATM with the canned ATM reply, whatever the oracle would say and whatever
other categories' keywords also occur in the message. -/
theorem classify_atm_substring (msg : List Char)
    (h : containsSub (lc "atm") (msg.map Char.toLower) = true) :
    ∀ r, processMessage msg r
        = (⟨some (lc "ATM"), lc "Saya akan carikan ATM untuk Anda."⟩, 0) := by
  have h' : containsSub (lc "atm") (normalizeMessage msg) = true := by
    unfold normalizeMessage
    exact containsSub_trimList _ _ (by decide) (by decide) h
  have hscan : ruleScan (normalizeMessage msg) = some SearchCat.atm := by
    unfold ruleScan
    rw [if_pos (show ruleMatch SearchCat.atm (normalizeMessage msg) = true from h')]
  intro r
  rw [processMessage_some msg r SearchCat.atm hscan]
  decide

/-- Witness for C10: "ATM" occurs only inside the longer mixed-case word
"ATMosfer", yet the message is classified ATM. -/
theorem classify_atm_substring_witness :
    containsSub (lc "atm") ((lc "cuaca di ATMosfer Bumi").map Char.toLower) = true
    ∧ processMessage (lc "cuaca di ATMosfer Bumi") (lc "apa saja")
        = (⟨some (lc "ATM"), lc "Saya akan carikan ATM untuk Anda."⟩, 0) :=
  ⟨by decide, classify_atm_substring (lc "cuaca di ATMosfer Bumi") (by decide) (lc "apa saja")⟩

/-! ## Claim theorems: location resolver -/

/-- C1: `getCurrentLocation` is a total function — no environment makes it
raise — and whenever the GPS, network, and IP tiers all fail (or time out,
both of which reject the tier promise and are `none` here) and the cache
does not apply, it returns the static fallback coordinate, the Jakarta city
centroid, tagged with the static-fallback source, after calling exactly the
three external sources. -/
theorem getCurrentLocation_total_fallback (env : GeoEnv) (st : GeoState)
    (hg : env.gpsResult = none) (hn : env.networkResult = none)
    (hi : env.ipResult = none) (hc : isCacheValid env st = false) :
    getCurrentLocation env st
        = (jakarta, st, [TierCall.gps, TierCall.network, TierCall.ip])
    ∧ jakarta.source = Source.fallback
    ∧ jakarta.lat = -6.2088 ∧ jakarta.lng = 106.8456 := by
  refine ⟨?_, rfl, rfl, rfl⟩
  unfold getCurrentLocation
  rw [hc, hg, hn, hi]
  simp [getFallbackLocation_eq]

/-- Witness for C1 at a concrete all-tiers-fail environment and empty cache. -/
theorem getCurrentLocation_total_fallback_witness :
    getCurrentLocation ⟨none, none, none, lc "UTC", 1000000⟩ ⟨none, 0, none⟩
        = (jakarta, ⟨none, 0, none⟩, [TierCall.gps, TierCall.network, TierCall.ip])
    ∧ jakarta.source = Source.fallback
    ∧ jakarta.lat = -6.2088 ∧ jakarta.lng = 106.8456 :=
  getCurrentLocation_total_fallback ⟨none, none, none, lc "UTC", 1000000⟩ ⟨none, 0, none⟩
    rfl rfl rfl (by decide)

/-- C6: after a first call whose coordinate ended up cached, a second call
whose `Date.now()` is within the 5-minute freshness window of the cache
returns that identical coordinate directly, leaves the state untouched, and
calls no positioning source (GPS, network or IP). -/
theorem getCurrentLocation_cache_fresh (env₁ env₂ : GeoEnv) (st st₁ : GeoState)
    (loc₁ : LocationCoords) (tr₁ : List TierCall)
    (_h₁ : getCurrentLocation env₁ st = (loc₁, st₁, tr₁))
    (h₂ : st₁.cachedLocation = some loc₁)
    (h₃ : env₂.now - st₁.cacheTimestamp < CACHE_DURATION) :
    getCurrentLocation env₂ st₁ = (loc₁, st₁, []) := by
  have hv : isCacheValid env₂ st₁ = true := by
    rw [isCacheValid, h₂]
    simp [h₃]
  unfold getCurrentLocation
  rw [hv, h₂]
  simp

/-- Witness for C6: the first call acquires a GPS fix at time 1000; the
second call at time 200000 (within 5 minutes) returns the identical
coordinate without consulting its own (different) GPS environment. -/
theorem getCurrentLocation_cache_fresh_witness :
    getCurrentLocation ⟨some ⟨9, 9, 9⟩, none, none, lc "UTC", 200000⟩
        ⟨some (gpsTierCoord ⟨1, 2, 3⟩), 1000, some (gpsTierCoord ⟨1, 2, 3⟩, 1000)⟩
      = (gpsTierCoord ⟨1, 2, 3⟩,
         ⟨some (gpsTierCoord ⟨1, 2, 3⟩), 1000, some (gpsTierCoord ⟨1, 2, 3⟩, 1000)⟩, []) :=
  getCurrentLocation_cache_fresh ⟨some ⟨1, 2, 3⟩, none, none, lc "UTC", 1000⟩
    ⟨some ⟨9, 9, 9⟩, none, none, lc "UTC", 200000⟩ ⟨none, 0, none⟩
    ⟨some (gpsTierCoord ⟨1, 2, 3⟩), 1000, some (gpsTierCoord ⟨1, 2, 3⟩, 1000)⟩
    (gpsTierCoord ⟨1, 2, 3⟩) [TierCall.gps] (by decide) rfl (by decide)

/-- C7 fails on the code: when the coordinate comes from the tier-4 static
fallback, the fallback branch returns without calling `updateCache` — the
in-memory cache, its timestamp, and the durable copy are all left exactly
as they were, not overwritten with the returned coordinate. -/
theorem updateCache_fallback_counterexample :
    (getCurrentLocation ⟨none, none, none, lc "UTC", 1000000⟩ ⟨none, 0, none⟩).1 = jakarta
    ∧ (getCurrentLocation ⟨none, none, none, lc "UTC", 1000000⟩ ⟨none, 0, none⟩).2.1
        = ⟨none, 0, none⟩
    ∧ (getCurrentLocation ⟨none, none, none, lc "UTC", 1000000⟩ ⟨none, 0, none⟩).2.1
        ≠ updateCache jakarta 1000000 ⟨none, 0, none⟩ := by
  refine ⟨rfl, rfl, ?_⟩
  have h2 : (getCurrentLocation ⟨none, none, none, lc "UTC", 1000000⟩ ⟨none, 0, none⟩).2.1
      = (⟨none, 0, none⟩ : GeoState) := rfl
  rw [h2]
  simp [updateCache]

/-- C7 amended: on acquisition from any of the three external tiers (GPS,
network, IP) the resulting state is exactly `updateCache` of the new
coordinate — in-memory cache, fresh timestamp, and durable copy all
overwritten unconditionally, whatever the prior cache held (in particular a
lower-accuracy fix replaces a higher-accuracy cached one); the tier-4
static fallback branch, however, returns without touching the cache. -/
theorem updateCache_tiers_unconditional (env : GeoEnv) (st : GeoState)
    (loc : LocationCoords) (st' : GeoState) (tr : List TierCall)
    (h : getCurrentLocation env st = (loc, st', tr))
    (htr : tr ≠ []) (hs : loc.source ≠ Source.fallback) :
    st' = ⟨some loc, env.now, some (loc, env.now)⟩ := by
  unfold getCurrentLocation at h
  by_cases hv : isCacheValid env st = true
  · rw [if_pos hv] at h
    simp only [Prod.mk.injEq] at h
    exact absurd h.2.2.symm htr
  · rw [if_neg hv] at h
    cases hg : env.gpsResult with
    | some p =>
      rw [hg] at h
      simp only [Prod.mk.injEq] at h
      rw [← h.1, ← h.2.1]
      rfl
    | none =>
      rw [hg] at h
      cases hn : env.networkResult with
      | some p =>
        rw [hn] at h
        simp only [Prod.mk.injEq] at h
        rw [← h.1, ← h.2.1]
        rfl
      | none =>
        rw [hn] at h
        cases hi : env.ipResult with
        | some q =>
          rw [hi] at h
          simp only [Prod.mk.injEq] at h
          rw [← h.1, ← h.2.1]
          rfl
        | none =>
          rw [hi] at h
          simp only [Prod.mk.injEq] at h
          have : loc.source = Source.fallback := by
            rw [← h.1, getFallbackLocation_eq]
            rfl
          exact absurd this hs

/-- Witness for C7 amended: a network-tier (lower-accuracy) acquisition at
time 50 overwrites a stale cache that held a GPS (higher-accuracy) fix. -/
theorem updateCache_tiers_unconditional_witness :
    (⟨some (networkTierCoord ⟨7, 8, 9000⟩), 50,
      some (networkTierCoord ⟨7, 8, 9000⟩, 50)⟩ : GeoState)
      = ⟨some (networkTierCoord ⟨7, 8, 9000⟩), 50, some (networkTierCoord ⟨7, 8, 9000⟩, 50)⟩ :=
  updateCache_tiers_unconditional
    ⟨none, some ⟨7, 8, 9000⟩, none, lc "UTC", 50⟩
    ⟨some (gpsTierCoord ⟨5, 6, 1⟩), -10000000, none⟩
    (networkTierCoord ⟨7, 8, 9000⟩)
    ⟨some (networkTierCoord ⟨7, 8, 9000⟩), 50, some (networkTierCoord ⟨7, 8, 9000⟩, 50)⟩
    [TierCall.gps, TierCall.network] (by decide) (by decide) (by decide)

/-- C8 fails on the code: the `watchPosition` subscription requests
low-power positioning (`enableHighAccuracy: false` — the very mode the
network tier uses and tags `Source.network`), yet every watch update is
tagged `Source.gps`: a low-power acquisition labelled as the precise-GPS
tier. -/
theorem watch_source_tag_counterexample :
    watchRequest.enableHighAccuracy = false
    ∧ networkTierRequest.enableHighAccuracy = false
    ∧ (networkTierCoord ⟨1, 2, 3⟩).source = Source.network
    ∧ (watchUpdateCoord ⟨1, 2, 3⟩).source = Source.gps
    ∧ Source.gps ≠ Source.network := by decide

/-- C8 amended: within `getCurrentLocation` every produced coordinate
carries exactly the tag of the tier that produced it — the source tag
characterises which tier succeeded; `watchPosition` updates, by contrast,
are always tagged `Source.gps` although the watch request runs with
`enableHighAccuracy: false` (the low-power mode). -/
theorem source_tag_per_tier (env : GeoEnv) (st : GeoState)
    (loc : LocationCoords) (st' : GeoState) (tr : List TierCall)
    (h : getCurrentLocation env st = (loc, st', tr)) (htr : tr ≠ []) :
    (loc.source = Source.gps ↔ env.gpsResult.isSome = true)
    ∧ (loc.source = Source.network
        ↔ env.gpsResult = none ∧ env.networkResult.isSome = true)
    ∧ (loc.source = Source.ip
        ↔ env.gpsResult = none ∧ env.networkResult = none ∧ env.ipResult.isSome = true)
    ∧ (loc.source = Source.fallback
        ↔ env.gpsResult = none ∧ env.networkResult = none ∧ env.ipResult = none)
    ∧ (∀ p : RawPosition, (watchUpdateCoord p).source = Source.gps)
    ∧ watchRequest.enableHighAccuracy = false := by
  unfold getCurrentLocation at h
  by_cases hv : isCacheValid env st = true
  · rw [if_pos hv] at h
    simp only [Prod.mk.injEq] at h
    exact absurd h.2.2.symm htr
  · rw [if_neg hv] at h
    cases hg : env.gpsResult with
    | some p =>
      rw [hg] at h
      simp only [Prod.mk.injEq] at h
      rw [← h.1]
      refine ⟨?_, ?_, ?_, ?_, fun q => rfl, rfl⟩ <;> simp [gpsTierCoord]
    | none =>
      rw [hg] at h
      cases hn : env.networkResult with
      | some p =>
        rw [hn] at h
        simp only [Prod.mk.injEq] at h
        rw [← h.1]
        refine ⟨?_, ?_, ?_, ?_, fun q => rfl, rfl⟩ <;> simp [networkTierCoord]
      | none =>
        rw [hn] at h
        cases hi : env.ipResult with
        | some q =>
          rw [hi] at h
          simp only [Prod.mk.injEq] at h
          rw [← h.1]
          refine ⟨?_, ?_, ?_, ?_, fun q => rfl, rfl⟩ <;> simp [ipTierCoord]
        | none =>
          rw [hi] at h
          simp only [Prod.mk.injEq] at h
          rw [← h.1, getFallbackLocation_eq]
          refine ⟨?_, ?_, ?_, ?_, fun q => rfl, rfl⟩ <;> simp [jakarta]

/-- Witness for C8 amended: an IP-tier acquisition carries the `ip` tag and
none of the higher tiers' tags. -/
theorem source_tag_per_tier_witness :
    ((ipTierCoord (3, 4)).source = Source.gps
        ↔ (none : Option RawPosition).isSome = true)
    ∧ ((ipTierCoord (3, 4)).source = Source.network
        ↔ (none : Option RawPosition) = none ∧ (none : Option RawPosition).isSome = true)
    ∧ ((ipTierCoord (3, 4)).source = Source.ip
        ↔ (none : Option RawPosition) = none ∧ (none : Option RawPosition) = none
            ∧ (some ((3 : ℚ), (4 : ℚ))).isSome = true)
    ∧ ((ipTierCoord (3, 4)).source = Source.fallback
        ↔ (none : Option RawPosition) = none ∧ (none : Option RawPosition) = none
            ∧ (some ((3 : ℚ), (4 : ℚ))) = none)
    ∧ (∀ p : RawPosition, (watchUpdateCoord p).source = Source.gps)
    ∧ watchRequest.enableHighAccuracy = false :=
  source_tag_per_tier ⟨none, none, some (3, 4), lc "UTC", 50⟩ ⟨none, 0, none⟩
    (ipTierCoord (3, 4))
    ⟨some (ipTierCoord (3, 4)), 50, some (ipTierCoord (3, 4), 50)⟩
    [TierCall.gps, TierCall.network, TierCall.ip] (by decide) (by decide)

/-! ## Claim theorem: distance -/

theorem hav_a_self (A : LocationCoords) : hav_a A A = 0 := by
  unfold hav_a toRadians
  simp

theorem hav_a_comm (A B : LocationCoords) : hav_a A B = hav_a B A := by
  unfold hav_a toRadians
  have hlat : ((A.lat : ℝ) - (B.lat : ℝ)) = -(((B.lat : ℝ) - (A.lat : ℝ))) := by ring
  have hlng : ((A.lng : ℝ) - (B.lng : ℝ)) = -(((B.lng : ℝ) - (A.lng : ℝ))) := by ring
  rw [hlat, hlng]
  simp only [neg_mul, neg_div, Real.sin_neg]
  ring

/-- C9: `getDistance` is the haversine great-circle distance with fixed
Earth radius 6371 km, modelled over the reals: it vanishes on equal
coordinates, is symmetric in its two arguments, and assigns two points one
degree of latitude apart on the equator a distance within 1% of 111 km. -/
theorem getDistance_haversine_props :
    (∀ A : LocationCoords, getDistance A A = 0)
    ∧ (∀ A B : LocationCoords, getDistance A B = getDistance B A)
    ∧ |getDistance ⟨0, 0, none, Source.gps⟩ ⟨1, 0, none, Source.gps⟩ - 111|
        ≤ (1 / 100) * 111 := by
  refine ⟨?_, ?_, ?_⟩
  · intro A
    unfold getDistance
    rw [hav_a_self]
    norm_num [atan2, Real.arctan_zero]
  · intro A B
    unfold getDistance
    rw [hav_a_comm]
  · have ha : hav_a ⟨0, 0, none, Source.gps⟩ ⟨1, 0, none, Source.gps⟩
        = Real.sin (Real.pi / 360) * Real.sin (Real.pi / 360) := by
      unfold hav_a toRadians
      norm_num
      ring_nf
    have hθpos : (0 : ℝ) < Real.pi / 360 := by positivity
    have hθlt : Real.pi / 360 < Real.pi / 2 := by nlinarith [Real.pi_pos]
    have hθle : Real.pi / 360 ≤ Real.pi := by nlinarith [Real.pi_pos]
    have hθgt : -(Real.pi / 2) < Real.pi / 360 := by nlinarith [Real.pi_pos]
    have hs : 0 ≤ Real.sin (Real.pi / 360) :=
      Real.sin_nonneg_of_nonneg_of_le_pi (le_of_lt hθpos) hθle
    have hc : 0 < Real.cos (Real.pi / 360) :=
      Real.cos_pos_of_mem_Ioo ⟨hθgt, hθlt⟩
    have h1 : Real.sqrt (Real.sin (Real.pi / 360) * Real.sin (Real.pi / 360))
        = Real.sin (Real.pi / 360) := Real.sqrt_mul_self hs
    have h2 : 1 - Real.sin (Real.pi / 360) * Real.sin (Real.pi / 360)
        = Real.cos (Real.pi / 360) * Real.cos (Real.pi / 360) := by
      have hsq := Real.sin_sq_add_cos_sq (Real.pi / 360)
      rw [pow_two, pow_two] at hsq
      linarith
    have h3 : Real.sqrt (Real.cos (Real.pi / 360) * Real.cos (Real.pi / 360))
        = Real.cos (Real.pi / 360) := Real.sqrt_mul_self (le_of_lt hc)
    have h4 : atan2 (Real.sin (Real.pi / 360)) (Real.cos (Real.pi / 360))
        = Real.pi / 360 := by
      unfold atan2
      rw [if_pos hc, ← Real.tan_eq_sin_div_cos]
      exact Real.arctan_tan hθgt hθlt
    have hd : getDistance ⟨0, 0, none, Source.gps⟩ ⟨1, 0, none, Source.gps⟩
        = 6371 * (2 * (Real.pi / 360)) := by
      unfold getDistance
      rw [ha, h1, h2, h3, h4]
    rw [hd, abs_le]
    constructor
    · nlinarith [Real.pi_gt_d6]
    · nlinarith [Real.pi_lt_d6]
